import Mathlib

/-!
Verification of the shared GPU uniform layout declared in
src/Depthtop/Shaders/ShaderTypes.h.

The header declares two plain C structs (WindowUniforms and
WindowUniformsArray) and one C enum (FunctionConstant).  We embed the
layout as the standard C record-layout computation over the declared
field sizes and alignments, and the values as Lean structures whose
integer fields hold the bit patterns the C fields store.
-/

/-- Round `off` up to the next multiple of `a`, as the C layout
algorithm does before placing a field of alignment `a`. -/
def alignUp (off a : Nat) : Nat := (off + a - 1) / a * a

/-- Size and alignment in bytes of one declared C struct field. -/
structure CField where
  size : Nat
  align : Nat

/-- Byte offsets the C layout algorithm assigns to a field list when
the running offset starts at `off`: each field goes at the current
offset rounded up to the field alignment. -/
def offsetsFrom (off : Nat) : List CField → List Nat
  | [] => []
  | f :: fs =>
      let o := alignUp off f.align
      o :: offsetsFrom (o + f.size) fs

/-- Byte offsets of the fields of a struct laid out from offset 0. -/
def offsets (fs : List CField) : List Nat := offsetsFrom 0 fs

/-- Offset of the first free byte after laying out the fields. -/
def endOffsetFrom (off : Nat) : List CField → Nat
  | [] => off
  | f :: fs => endOffsetFrom (alignUp off f.align + f.size) fs

/-- Alignment of a C struct: the maximum alignment of its fields. -/
def structAlign (fs : List CField) : Nat :=
  fs.foldl (fun a f => max a f.align) 1

/-- Size of a C struct: the end offset of the last field, rounded up
to the struct alignment. -/
def structSize (fs : List CField) : Nat :=
  alignUp (endOffsetFrom 0 fs) (structAlign fs)

/-- Declared sizes of the fields, in order. -/
def sizesOf (fs : List CField) : List Nat := fs.map CField.size

/-- A layout is gap free when the declared field sizes account for
every byte of the struct, so the compiler inserts no hidden padding. -/
def gapFree (fs : List CField) : Prop :=
  (sizesOf fs).sum = structSize fs

/- Base type sizes of the C data model used by the header:
float and uint32_t are 4 bytes, uint16_t is 2 bytes, and the simd
library matrix simd_float4x4 is 4 columns of 16-byte simd_float4,
hence 64 bytes with 16-byte alignment. -/

/-- Size in bytes of a C float. -/
def float_size : Nat := 4

/-- Size in bytes of a C uint16_t. -/
def uint16_size : Nat := 2

/-- Size in bytes of a C uint32_t. -/
def uint32_size : Nat := 4

/-- Size in bytes of simd_float4x4: sixteen 4-byte floats. -/
def simd_float4x4_size : Nat := 16 * float_size

/-- Alignment in bytes of simd_float4x4, the alignment of its
16-byte simd_float4 columns. -/
def simd_float4x4_align : Nat := 16

/-- Field list of struct WindowUniforms as declared in the header:
modelMatrix, viewMatrix, projectionMatrix, each a simd_float4x4. -/
def WindowUniforms.cfields : List CField :=
  [⟨simd_float4x4_size, simd_float4x4_align⟩,
   ⟨simd_float4x4_size, simd_float4x4_align⟩,
   ⟨simd_float4x4_size, simd_float4x4_align⟩]

/-- Computed size of struct WindowUniforms. -/
def WindowUniforms.csize : Nat := structSize WindowUniforms.cfields

/-- Computed alignment of struct WindowUniforms. -/
def WindowUniforms.calign : Nat := structAlign WindowUniforms.cfields

/-- Field list of struct WindowUniformsArray as declared in the
header, in declaration order: uniforms[2], windowID, isHovered,
padding, hoverProgress, padding2. -/
def WindowUniformsArray.cfields : List CField :=
  [⟨2 * WindowUniforms.csize, WindowUniforms.calign⟩,
   ⟨uint16_size, uint16_size⟩,
   ⟨uint16_size, uint16_size⟩,
   ⟨uint32_size, uint32_size⟩,
   ⟨float_size, float_size⟩,
   ⟨uint32_size, uint32_size⟩]

/-- Modelled from the spec: the first (unpadded) revision of the
header, absent from the sources, declares the same struct without the
two explicit uint32_t padding fields, leaving the compiler to align
hoverProgress implicitly. -/
def WindowUniformsArrayUnpadded.cfields : List CField :=
  [⟨2 * WindowUniforms.csize, WindowUniforms.calign⟩,
   ⟨uint16_size, uint16_size⟩,
   ⟨uint16_size, uint16_size⟩,
   ⟨float_size, float_size⟩]

/- Value-level model.  Each C integer or float field stores a bit
pattern; we model the stored pattern as a Nat below the width bound.
Matrix entries are 32-bit float bit patterns. -/

/-- A simd_float4x4 value: 4 by 4 entries of 32-bit bit patterns. -/
def simd_float4x4 : Type := Fin 4 → Fin 4 → Nat

/-- Value model of struct WindowUniforms: the three matrices in
declaration order. -/
structure WindowUniforms where
  modelMatrix : simd_float4x4
  viewMatrix : simd_float4x4
  projectionMatrix : simd_float4x4

/-- Value model of struct WindowUniformsArray: the six fields in
declaration order, integer fields holding their stored bit pattern. -/
structure WindowUniformsArray where
  uniforms : Fin 2 → WindowUniforms
  windowID : Nat
  isHovered : Nat
  padding : Nat
  hoverProgress : Nat
  padding2 : Nat

/-- The all-zero WindowUniforms value. -/
def WindowUniforms.zero : WindowUniforms :=
  ⟨fun _ _ => 0, fun _ _ => 0, fun _ _ => 0⟩

/-- The all-zero WindowUniformsArray value. -/
def WindowUniformsArray.zero : WindowUniformsArray :=
  ⟨fun _ => WindowUniforms.zero, 0, 0, 0, 0, 0⟩

/-- Assignment to the uniforms member. -/
def WindowUniformsArray.setUniforms (s : WindowUniformsArray)
    (u : Fin 2 → WindowUniforms) : WindowUniformsArray :=
  { s with uniforms := u }

/-- Assignment to the 16-bit windowID member: stores the low 16 bits. -/
def WindowUniformsArray.setWindowID (s : WindowUniformsArray)
    (v : Nat) : WindowUniformsArray :=
  { s with windowID := v % 2 ^ 16 }

/-- Assignment to the 16-bit isHovered member: stores the low 16 bits. -/
def WindowUniformsArray.setIsHovered (s : WindowUniformsArray)
    (v : Nat) : WindowUniformsArray :=
  { s with isHovered := v % 2 ^ 16 }

/-- Assignment to the 32-bit padding member: stores the low 32 bits. -/
def WindowUniformsArray.setPadding (s : WindowUniformsArray)
    (v : Nat) : WindowUniformsArray :=
  { s with padding := v % 2 ^ 32 }

/-- Assignment to the 32-bit float hoverProgress member: stores the
32-bit pattern unchanged, with no clamping or conversion. -/
def WindowUniformsArray.setHoverProgress (s : WindowUniformsArray)
    (v : Nat) : WindowUniformsArray :=
  { s with hoverProgress := v % 2 ^ 32 }

/-- Assignment to the 32-bit padding2 member: stores the low 32 bits. -/
def WindowUniformsArray.setPadding2 (s : WindowUniformsArray)
    (v : Nat) : WindowUniformsArray :=
  { s with padding2 := v % 2 ^ 32 }

/-- Modelled from the spec: the shader code reading the hover flag is
absent from the sources; the spec states that the flag decodes as a C
boolean, hovered exactly when the 16-bit value is nonzero. -/
def WindowUniformsArray.isHoveredBool (s : WindowUniformsArray) : Bool :=
  s.isHovered != 0

/-- Value of an IEEE-754 binary32 bit pattern as a rational number,
or none for the infinity and NaN patterns (exponent 255). -/
def float32ToRat (b : Nat) : Option ℚ :=
  let s : ℚ := if b / 2 ^ 31 % 2 = 0 then 1 else -1
  let e : Nat := b / 2 ^ 23 % 2 ^ 8
  let m : Nat := b % 2 ^ 23
  if e = 255 then none
  else if e = 0 then some (s * (m : ℚ) / 2 ^ 149)
  else some (s * ((2 ^ 23 + m : Nat) : ℚ) * 2 ^ e / 2 ^ 150)

/-- The enum FunctionConstant with its three enumerators in
declaration order. -/
inductive FunctionConstant
  | FunctionConstantHoverEffect
  | FunctionConstantUseTextureArray
  | FunctionConstantDebugColors

/-- Ordinal of each enumerator under C enum semantics: the first
enumerator is 0 and each later one is one more than its predecessor. -/
def FunctionConstant.val : FunctionConstant → Nat
  | .FunctionConstantHoverEffect => 0
  | .FunctionConstantUseTextureArray => 1
  | .FunctionConstantDebugColors => 2

/-- C1: the padded per-window uniform block struct WindowUniformsArray
has total size exactly 400 bytes. -/
theorem WindowUniformsArray.csize_eq_400 :
    structSize WindowUniformsArray.cfields = 400 := by rfl

/-- C2: the fields of WindowUniformsArray sit at fixed byte offsets in
declaration order: the two-transform array fills the leading 384
bytes, windowID is at offset 384, isHovered at 386, padding at 388,
hoverProgress at 392, and padding2 at 396. -/
theorem WindowUniformsArray.offsets_fixed :
    offsets WindowUniformsArray.cfields = [0, 384, 386, 388, 392, 396] ∧
    (WindowUniformsArray.cfields.getD 0 ⟨0, 1⟩).size = 384 :=
  ⟨rfl, rfl⟩

/-- C3 as stated is false: the explicitly padded layout does not give
every named field the offset of the implicit unpadded layout.  The
hoverProgress field is at offset 392 in the padded layout, but the
implicit layout would place it at 388, which is already 4-byte
aligned without the inserted padding field. -/
theorem hoverProgress_offset_moves :
    (offsets WindowUniformsArray.cfields).getD 4 0 = 392 ∧
    (offsets WindowUniformsArrayUnpadded.cfields).getD 3 0 = 388 ∧
    (offsets WindowUniformsArray.cfields).getD 4 0 ≠
      (offsets WindowUniformsArrayUnpadded.cfields).getD 3 0 :=
  ⟨rfl, rfl, by decide⟩

/-- C3 amended: hoverProgress is 4-byte aligned in both layouts, and
the fields before the inserted padding keep their implicit offsets,
but the inserted padding shifts hoverProgress itself from 388 to 392;
the two layouts still have the same 400-byte total size, since the
16-byte struct alignment already pads the unpadded layout at the
end. -/
theorem padded_vs_implicit_layout :
    (offsets WindowUniformsArray.cfields).getD 0 0 =
      (offsets WindowUniformsArrayUnpadded.cfields).getD 0 0 ∧
    (offsets WindowUniformsArray.cfields).getD 1 0 =
      (offsets WindowUniformsArrayUnpadded.cfields).getD 1 0 ∧
    (offsets WindowUniformsArray.cfields).getD 2 0 =
      (offsets WindowUniformsArrayUnpadded.cfields).getD 2 0 ∧
    (offsets WindowUniformsArray.cfields).getD 4 0 % 4 = 0 ∧
    (offsets WindowUniformsArrayUnpadded.cfields).getD 3 0 % 4 = 0 ∧
    (offsets WindowUniformsArray.cfields).getD 4 0 =
      (offsets WindowUniformsArrayUnpadded.cfields).getD 3 0 + 4 ∧
    structSize WindowUniformsArray.cfields =
      structSize WindowUniformsArrayUnpadded.cfields :=
  ⟨rfl, rfl, rfl, rfl, rfl, rfl, rfl⟩

/-- C4 as stated is false: a WindowUniformsArray instance can hold the
bit pattern of 1.5 in hoverProgress, a value outside the closed range
from 0 to 1; the structure does not force the range. -/
theorem hoverProgress_out_of_range_instance :
    float32ToRat ((WindowUniformsArray.zero.setHoverProgress
      1069547520).hoverProgress) = some (3 / 2) ∧
    ¬ ((3 : ℚ) / 2 ≤ 1) := by
  constructor
  · norm_num [WindowUniformsArray.setHoverProgress,
      WindowUniformsArray.zero, float32ToRat]
  · norm_num

/-- C4 amended: the range from 0 to 1 is nominal only; the structure
imposes no invariant on hoverProgress, and every 32-bit pattern,
including patterns that encode values above 1, occurs as the
hoverProgress field of some instance. -/
theorem hoverProgress_unconstrained (v : Nat) (h : v < 2 ^ 32) :
    ∃ s : WindowUniformsArray, s.hoverProgress = v :=
  ⟨{ WindowUniformsArray.zero with hoverProgress := v }, rfl⟩

/-- Witness for the amended C4 at the bit pattern of 1.5. -/
theorem hoverProgress_unconstrained_witness :
    1069547520 < 2 ^ 32 ∧
    ∃ s : WindowUniformsArray, s.hoverProgress = 1069547520 :=
  ⟨by decide, hoverProgress_unconstrained 1069547520 (by decide)⟩

/-- C5: writing any 32-bit pattern to hoverProgress and reading it
back yields the identical pattern; the structure performs no clamping,
so out-of-range patterns round-trip unchanged. -/
theorem setHoverProgress_roundtrip (s : WindowUniformsArray) (v : Nat)
    (h : v < 2 ^ 32) : (s.setHoverProgress v).hoverProgress = v := by
  simpa [WindowUniformsArray.setHoverProgress] using Nat.mod_eq_of_lt h

/-- Witness for C5 at the bit pattern of the out-of-range value 1.5. -/
theorem setHoverProgress_roundtrip_witness :
    1069547520 < 2 ^ 32 ∧
    (WindowUniformsArray.zero.setHoverProgress 1069547520).hoverProgress
      = 1069547520 :=
  ⟨by decide, setHoverProgress_roundtrip WindowUniformsArray.zero
    1069547520 (by decide)⟩

/-- C6: the boolean decoding of isHovered is true exactly when the
stored 16-bit value is nonzero; storing 0 decodes to not hovered and
storing the nonzero value 1 decodes to hovered. -/
theorem isHovered_nonzero_iff (s : WindowUniformsArray) :
    (s.isHoveredBool = true ↔ s.isHovered ≠ 0) ∧
    (s.setIsHovered 0).isHoveredBool = false ∧
    (s.setIsHovered 1).isHoveredBool = true := by
  refine ⟨?_, rfl, rfl⟩
  simp [WindowUniformsArray.isHoveredBool]

/-- C7: the FunctionConstant enumerators take exactly the pairwise
distinct ordinals hover-effect 0, texture-array 1, debug-colors 2,
and these three are all the enumerators. -/
theorem FunctionConstant.val_spec :
    FunctionConstant.FunctionConstantHoverEffect.val = 0 ∧
    FunctionConstant.FunctionConstantUseTextureArray.val = 1 ∧
    FunctionConstant.FunctionConstantDebugColors.val = 2 ∧
    FunctionConstant.FunctionConstantHoverEffect.val ≠
      FunctionConstant.FunctionConstantUseTextureArray.val ∧
    FunctionConstant.FunctionConstantHoverEffect.val ≠
      FunctionConstant.FunctionConstantDebugColors.val ∧
    FunctionConstant.FunctionConstantUseTextureArray.val ≠
      FunctionConstant.FunctionConstantDebugColors.val ∧
    ∀ c : FunctionConstant,
      c = FunctionConstant.FunctionConstantHoverEffect ∨
      c = FunctionConstant.FunctionConstantUseTextureArray ∨
      c = FunctionConstant.FunctionConstantDebugColors := by
  refine ⟨rfl, rfl, rfl, by decide, by decide, by decide, ?_⟩
  intro c
  cases c
  · exact Or.inl rfl
  · exact Or.inr (Or.inl rfl)
  · exact Or.inr (Or.inr rfl)

/-- C8: struct WindowUniforms is exactly three 4-by-4 float matrices
laid out consecutively at offsets 0, 64, 128 in 192 bytes, and the
two-element array of them at the head of WindowUniformsArray occupies
2 times 192 = 384 bytes, with the next field at offset 384. -/
theorem WindowUniforms.csize_eq_192 :
    WindowUniforms.cfields.length = 3 ∧
    offsets WindowUniforms.cfields = [0, 64, 128] ∧
    WindowUniforms.csize = 192 ∧
    (WindowUniformsArray.cfields.getD 0 ⟨0, 1⟩).size =
      2 * WindowUniforms.csize ∧
    2 * WindowUniforms.csize = 384 ∧
    (offsets WindowUniformsArray.cfields).getD 1 0 = 384 :=
  ⟨rfl, rfl, rfl, rfl, rfl, rfl⟩

/-- C9: the declared field sizes 384, 2, 2, 4, 4, 4 sum to the full
400-byte struct size, so every byte of WindowUniformsArray belongs to
a declared field and the compiler inserts no hidden padding. -/
theorem WindowUniformsArray.gapFree_layout :
    sizesOf WindowUniformsArray.cfields = [384, 2, 2, 4, 4, 4] ∧
    gapFree WindowUniformsArray.cfields ∧
    (sizesOf WindowUniformsArray.cfields).sum = 400 :=
  ⟨rfl, rfl, rfl⟩

/-- C10: field assignments are independent; writing any one field of
WindowUniformsArray leaves the stored values of the other five fields
unchanged. -/
theorem WindowUniformsArray.set_frame (s : WindowUniformsArray)
    (u : Fin 2 → WindowUniforms) (v : Nat) :
    ((s.setUniforms u).windowID = s.windowID ∧
     (s.setUniforms u).isHovered = s.isHovered ∧
     (s.setUniforms u).padding = s.padding ∧
     (s.setUniforms u).hoverProgress = s.hoverProgress ∧
     (s.setUniforms u).padding2 = s.padding2) ∧
    ((s.setWindowID v).uniforms = s.uniforms ∧
     (s.setWindowID v).isHovered = s.isHovered ∧
     (s.setWindowID v).padding = s.padding ∧
     (s.setWindowID v).hoverProgress = s.hoverProgress ∧
     (s.setWindowID v).padding2 = s.padding2) ∧
    ((s.setIsHovered v).uniforms = s.uniforms ∧
     (s.setIsHovered v).windowID = s.windowID ∧
     (s.setIsHovered v).padding = s.padding ∧
     (s.setIsHovered v).hoverProgress = s.hoverProgress ∧
     (s.setIsHovered v).padding2 = s.padding2) ∧
    ((s.setPadding v).uniforms = s.uniforms ∧
     (s.setPadding v).windowID = s.windowID ∧
     (s.setPadding v).isHovered = s.isHovered ∧
     (s.setPadding v).hoverProgress = s.hoverProgress ∧
     (s.setPadding v).padding2 = s.padding2) ∧
    ((s.setHoverProgress v).uniforms = s.uniforms ∧
     (s.setHoverProgress v).windowID = s.windowID ∧
     (s.setHoverProgress v).isHovered = s.isHovered ∧
     (s.setHoverProgress v).padding = s.padding ∧
     (s.setHoverProgress v).padding2 = s.padding2) ∧
    ((s.setPadding2 v).uniforms = s.uniforms ∧
     (s.setPadding2 v).windowID = s.windowID ∧
     (s.setPadding2 v).isHovered = s.isHovered ∧
     (s.setPadding2 v).padding = s.padding ∧
     (s.setPadding2 v).hoverProgress = s.hoverProgress) :=
  ⟨⟨rfl, rfl, rfl, rfl, rfl⟩, ⟨rfl, rfl, rfl, rfl, rfl⟩,
   ⟨rfl, rfl, rfl, rfl, rfl⟩, ⟨rfl, rfl, rfl, rfl, rfl⟩,
   ⟨rfl, rfl, rfl, rfl, rfl⟩, ⟨rfl, rfl, rfl, rfl, rfl⟩⟩
